import Mathlib

/-!
Verification of the team lifecycle and failure-recovery subsystem of the
sidstack repository. The definitions below are a shallow embedding of the
Rust sources in `src-tauri/src/team_storage.rs`, `src-tauri/src/team_manager.rs`
and `src-tauri/src/recovery_watchdog.rs`. Timestamps (`chrono::DateTime<Utc>`)
are modelled as natural numbers; fresh UUIDs are passed in as explicit
parameters; `HashMap<String, MemberState>` is modelled as an association
list with the usual first-match get / replace-first insert / modify-first
semantics of a hash map; fallible operations return `Except`. In the Rust
code every error return happens before the first storage write, so a result
of `Except.error` models "nothing was persisted".
-/

namespace Sidstack

/-- Association-list model of `HashMap::get`: first entry with the key. -/
def alGet {α : Type} : List (String × α) → String → Option α
  | [], _ => none
  | p :: rest, k => if p.1 == k then some p.2 else alGet rest k

/-- Association-list model of `HashMap::insert`: replace the entry with the
key if present, otherwise add a new entry. -/
def alInsert {α : Type} : List (String × α) → String → α → List (String × α)
  | [], k, v => [(k, v)]
  | p :: rest, k, v => if p.1 == k then (k, v) :: rest else p :: alInsert rest k v

/-- Association-list model of mutating through `HashMap::get_mut`: apply `f`
to the entry with the key, if present. -/
def alModify {α : Type} : List (String × α) → String → (α → α) → List (String × α)
  | [], _, _ => []
  | p :: rest, k, f => if p.1 == k then (p.1, f p.2) :: rest else p :: alModify rest k f

/-- Association-list model of `HashMap::remove` (drops the entry with the key). -/
def alRemove {α : Type} (l : List (String × α)) (k : String) : List (String × α) :=
  l.filter (fun p => p.1 != k)

/-- The key set of an association list (the member-id set of `State.members`). -/
def alKeys {α : Type} (l : List (String × α)) : List String :=
  l.map Prod.fst

/-- Replace the first element satisfying `p` by its image under `f`; models
Rust's `iter_mut().find(p)` followed by a mutation, and `position` followed
by an indexed assignment. -/
def updateFirst {α : Type} (p : α → Bool) (f : α → α) : List α → List α
  | [] => []
  | x :: xs => if p x then f x :: xs else x :: updateFirst p f xs

/-- `TeamStatus` from team_storage.rs. -/
inductive TeamStatus where
  | Active
  | Paused
  | Archived
deriving DecidableEq, Repr

/-- Rust `{:?}` rendering of `TeamStatus`, used in the resume_team error message. -/
def TeamStatus.debug_str : TeamStatus → String
  | .Active => "Active"
  | .Paused => "Paused"
  | .Archived => "Archived"

/-- `MemberStatus` from team_storage.rs. -/
inductive MemberStatus where
  | Active
  | Idle
  | Failed
  | Recovering
  | Paused
deriving DecidableEq, Repr

/-- `MemberTaskInfo` from team_storage.rs. -/
structure MemberTaskInfo where
  task_id : String
  spec_id : Option String
  phase : String
  progress : Nat
deriving DecidableEq, Repr

/-- `MemberState` from team_storage.rs. -/
structure MemberState where
  status : MemberStatus
  terminal_id : Option String
  claude_session_id : Option String
  current_task : Option MemberTaskInfo
  last_heartbeat : Option Nat
deriving DecidableEq, Repr

/-- `TeamMemberConfig` from team_storage.rs. -/
structure TeamMemberConfig where
  id : String
  role : String
  agent_type : String
  terminal_id : Option String
  claude_session_id : Option String
  current_task_id : Option String
  current_spec_id : Option String
  failure_count : Nat
  last_failure : Option Nat
  recovered_from : Option String
deriving DecidableEq, Repr

/-- `TeamMemberConfig::new` from team_storage.rs; the generated UUID is
passed in as `freshId`. -/
def TeamMemberConfig.new (freshId role agent_type : String) : TeamMemberConfig :=
  { id := freshId
    role := role
    agent_type := agent_type
    terminal_id := none
    claude_session_id := none
    current_task_id := none
    current_spec_id := none
    failure_count := 0
    last_failure := none
    recovered_from := none }

/-- `TeamConfig` from team_storage.rs. -/
structure TeamConfig where
  id : String
  name : String
  project_path : String
  created_at : Nat
  created_by : String
  orchestrator : TeamMemberConfig
  workers : List TeamMemberConfig
  auto_recovery : Bool
  max_recovery_attempts : Nat
  recovery_delay_ms : Nat
  description : Option String
  tags : List String
deriving DecidableEq, Repr

/-- `TerminalSessionInfo` from team_storage.rs. -/
structure TerminalSessionInfo where
  member_id : String
  terminal_id : String
  claude_session_id : Option String
  cwd : String
deriving DecidableEq, Repr

/-- `SessionInfo` from team_storage.rs. -/
structure SessionInfo where
  saved_at : Nat
  terminals : List TerminalSessionInfo
deriving DecidableEq, Repr

/-- `TeamState` from team_storage.rs. -/
structure TeamState where
  team_id : String
  status : TeamStatus
  last_active : Nat
  members : List (String × MemberState)
  active_specs : List String
  session_info : Option SessionInfo
deriving DecidableEq, Repr

/-- `RecoveryContextSummary` from team_storage.rs. -/
structure RecoveryContextSummary where
  progress : Nat
  artifacts : List String
  current_step : Option String
deriving DecidableEq, Repr

/-- `RecoveryEvent` from team_storage.rs. -/
structure RecoveryEvent where
  id : String
  timestamp : Nat
  failed_member_id : String
  failed_member_role : String
  replacement_member_id : String
  reason : String
  spec_id : Option String
  task_id : Option String
  recovery_context : Option RecoveryContextSummary
  success : Bool
deriving DecidableEq, Repr

/-- `TeamIndexEntry` from team_storage.rs. -/
structure TeamIndexEntry where
  id : String
  name : String
  status : TeamStatus
  last_active : Nat
  member_count : Nat
deriving DecidableEq, Repr

/-- `TeamManagerError` from team_manager.rs (the storage error payload is
reduced to its message string). -/
inductive TeamManagerError where
  | StorageError (msg : String)
  | MemberNotFound (id : String)
  | InvalidOperation (msg : String)
deriving DecidableEq, Repr

/-- `TeamStorage::add_recovery_event` from team_storage.rs: insert newest
first, keep only the most recent 100 events. -/
def add_recovery_event (events : List RecoveryEvent) (event : RecoveryEvent) :
    List RecoveryEvent :=
  (event :: events).take 100

/-- `TeamStorage::update_index_entry` from team_storage.rs: replace the first
index entry with the same id, or append the entry. -/
def update_index_entry (teams : List TeamIndexEntry) (entry : TeamIndexEntry) :
    List TeamIndexEntry :=
  if (teams.find? (fun t => t.id == entry.id)).isSome then
    updateFirst (fun t => t.id == entry.id) (fun _ => entry) teams
  else
    teams ++ [entry]

/-- The index entry that `TeamStorage::save_config` writes (team_storage.rs):
status is unconditionally `Active`, `last_active` is the current time and
`member_count` is one orchestrator plus the workers. -/
def save_config_index_entry (config : TeamConfig) (now : Nat) : TeamIndexEntry :=
  { id := config.id
    name := config.name
    status := TeamStatus.Active
    last_active := now
    member_count := 1 + config.workers.length }

/-- Effect of `TeamStorage::save_config` on the project's team index. -/
def save_config_index (config : TeamConfig) (now : Nat)
    (teams : List TeamIndexEntry) : List TeamIndexEntry :=
  update_index_entry teams (save_config_index_entry config now)

/-- The persisted (Config, State) pair after a manager operation: on success
the saved documents, on error the documents as loaded (in the Rust code every
error return precedes the first write). -/
def persisted_docs (config : TeamConfig) (state : TeamState)
    (r : Except TeamManagerError (TeamConfig × TeamState)) :
    TeamConfig × TeamState :=
  match r with
  | .ok cs => cs
  | .error _ => (config, state)

/-- `TeamManager::remove_member` from team_manager.rs. -/
def remove_member (config : TeamConfig) (state : TeamState) (member_id : String) :
    Except TeamManagerError (TeamConfig × TeamState) :=
  if config.orchestrator.id == member_id then
    .error (.InvalidOperation "Cannot remove orchestrator from team")
  else
    let config2 := { config with workers := config.workers.filter (fun w => w.id != member_id) }
    let state2 := { state with members := alRemove state.members member_id }
    .ok (config2, state2)

/-- `TeamManager::update_member_session` from team_manager.rs: only `Some`
arguments overwrite the stored session identifiers. -/
def update_member_session (config : TeamConfig) (state : TeamState)
    (member_id : String) (terminal_id claude_session_id : Option String)
    (now : Nat) : Except TeamManagerError (TeamConfig × TeamState) :=
  match alGet state.members member_id with
  | none => .error (.MemberNotFound member_id)
  | some ms =>
    let ms2 : MemberState :=
      { ms with
        terminal_id := if terminal_id.isSome then terminal_id else ms.terminal_id
        claude_session_id :=
          if claude_session_id.isSome then claude_session_id else ms.claude_session_id
        last_heartbeat := some now }
    .ok (config, { state with
      members := alInsert state.members member_id ms2
      last_active := now })

/-- `TeamManager::update_member_status` from team_manager.rs. -/
def update_member_status (config : TeamConfig) (state : TeamState)
    (member_id : String) (status : MemberStatus) (now : Nat) :
    Except TeamManagerError (TeamConfig × TeamState) :=
  match alGet state.members member_id with
  | none => .error (.MemberNotFound member_id)
  | some ms =>
    let ms2 : MemberState := { ms with status := status, last_heartbeat := some now }
    .ok (config, { state with
      members := alInsert state.members member_id ms2
      last_active := now })

/-- `TeamManager::update_member_task` from team_manager.rs: installs the
given task info unconditionally (no member-status check) and extends
`active_specs` with a not-yet-listed spec id. -/
def update_member_task (config : TeamConfig) (state : TeamState)
    (member_id : String) (task_info : Option MemberTaskInfo) (now : Nat) :
    Except TeamManagerError (TeamConfig × TeamState) :=
  match alGet state.members member_id with
  | none => .error (.MemberNotFound member_id)
  | some ms =>
    let ms2 : MemberState := { ms with current_task := task_info, last_heartbeat := some now }
    let specs2 :=
      match task_info with
      | some task =>
        match task.spec_id with
        | some sid =>
          if state.active_specs.contains sid then state.active_specs
          else state.active_specs ++ [sid]
        | none => state.active_specs
      | none => state.active_specs
    .ok (config, { state with
      members := alInsert state.members member_id ms2
      active_specs := specs2
      last_active := now })

/-- `TeamManager::record_heartbeat` from team_manager.rs: refreshes the
member's `last_heartbeat` only (the team's `last_active` is not touched). -/
def record_heartbeat (config : TeamConfig) (state : TeamState)
    (member_id : String) (now : Nat) :
    Except TeamManagerError (TeamConfig × TeamState) :=
  match alGet state.members member_id with
  | none => .error (.MemberNotFound member_id)
  | some ms =>
    let ms2 : MemberState := { ms with last_heartbeat := some now }
    .ok (config, { state with members := alInsert state.members member_id ms2 })

/-- `TeamManager::resume_team` from team_manager.rs. -/
def resume_team (config : TeamConfig) (state : TeamState) (now : Nat) :
    Except TeamManagerError (TeamConfig × TeamState × Option SessionInfo) :=
  if state.status ≠ TeamStatus.Paused then
    .error (.InvalidOperation ("Team is not paused, status: " ++ state.status.debug_str))
  else
    let session_info := state.session_info
    let members2 := state.members.map (fun p =>
      (p.1, { p.2 with
        status := MemberStatus.Idle
        terminal_id := none
        claude_session_id := none }))
    .ok (config,
      { state with
        status := TeamStatus.Active
        last_active := now
        members := members2
        session_info := none },
      session_info)

/-- Increment of failure bookkeeping done by `report_member_failure`. -/
def bump_failure (now : Nat) (m : TeamMemberConfig) : TeamMemberConfig :=
  { m with failure_count := m.failure_count + 1, last_failure := some now }

/-- `TeamManager::report_member_failure` from team_manager.rs (the `reason`
argument is ignored by the Rust code as well). -/
def report_member_failure (config : TeamConfig) (state : TeamState)
    (member_id : String) (_reason : String) (now : Nat) :
    Except TeamManagerError (TeamConfig × TeamState) :=
  if config.orchestrator.id == member_id then
    let config2 := { config with orchestrator := bump_failure now config.orchestrator }
    .ok (config2, { state with
      members := alModify state.members member_id (fun ms => { ms with status := MemberStatus.Failed })
      last_active := now })
  else if (config.workers.find? (fun w => w.id == member_id)).isSome then
    let config2 := { config with
      workers := updateFirst (fun w => w.id == member_id) (bump_failure now) config.workers }
    .ok (config2, { state with
      members := alModify state.members member_id (fun ms => { ms with status := MemberStatus.Failed })
      last_active := now })
  else
    .error (.MemberNotFound member_id)

/-- The failed-member lookup used by `create_replacement_member`
(orchestrator first, then the workers). -/
def find_config_member (config : TeamConfig) (member_id : String) :
    Option TeamMemberConfig :=
  if config.orchestrator.id == member_id then some config.orchestrator
  else config.workers.find? (fun w => w.id == member_id)

/-- `TeamManager::create_replacement_member` from team_manager.rs; the fresh
UUID of the replacement is passed in as `freshId`. -/
def create_replacement_member (config : TeamConfig) (state : TeamState)
    (failed_member_id freshId : String) (now : Nat) :
    Except TeamManagerError (TeamConfig × TeamState × TeamMemberConfig) :=
  match find_config_member config failed_member_id with
  | none => .error (.MemberNotFound failed_member_id)
  | some failed_member =>
    let replacement : TeamMemberConfig :=
      { TeamMemberConfig.new freshId failed_member.role failed_member.agent_type with
        recovered_from := some failed_member_id
        current_task_id := failed_member.current_task_id
        current_spec_id := failed_member.current_spec_id }
    let config2 :=
      if config.orchestrator.id == failed_member_id then
        { config with orchestrator := replacement }
      else
        { config with
          workers := updateFirst (fun w => w.id == failed_member_id)
            (fun _ => replacement) config.workers }
    let failed_state := alGet state.members failed_member_id
    let members2 := alInsert (alRemove state.members failed_member_id) replacement.id
      { status := MemberStatus.Recovering
        terminal_id := none
        claude_session_id := none
        current_task := failed_state.bind (fun s => s.current_task)
        last_heartbeat := some now }
    .ok (config2, { state with members := members2, last_active := now }, replacement)

/-- The recovery sequence checked by the spec: `report_member_failure`
followed immediately by `create_replacement_member` (team_manager.rs, also
the order used by the watchdog's `trigger_recovery`). -/
def fail_then_replace (config : TeamConfig) (state : TeamState)
    (member_id reason : String) (now1 now2 : Nat) (freshId : String) :
    Except TeamManagerError (TeamConfig × TeamState × TeamMemberConfig) :=
  match report_member_failure config state member_id reason now1 with
  | .error e => .error e
  | .ok (config1, state1) =>
    create_replacement_member config1 state1 member_id freshId now2

/-- `RecoveryContext` from team_manager.rs. -/
structure RecoveryContext where
  spec_id : Option String
  task_id : Option String
  phase : Option String
  progress : Nat
  completed_steps : List String
  current_step : Option String
  artifacts : List String
  resume_instructions : String
deriving DecidableEq, Repr

/-- `TeamManager::build_recovery_context` from team_manager.rs (read-only). -/
def build_recovery_context (state : TeamState) (member_id : String) :
    Except TeamManagerError RecoveryContext :=
  match alGet state.members member_id with
  | none => .error (.MemberNotFound member_id)
  | some member_state =>
    let fields :=
      match member_state.current_task with
      | some task => (task.spec_id, some task.task_id, some task.phase, task.progress)
      | none => (none, none, none, 0)
    let resume_instructions :=
      match fields.1 with
      | some spec =>
        "You are replacing a failed agent. Continue work on spec \x27" ++ spec ++
          "\x27 from " ++ toString fields.2.2.2 ++
          "% progress. Review existing artifacts before proceeding."
      | none => "You are replacing a failed agent. Check for pending tasks and continue work."
    .ok { spec_id := fields.1
          task_id := fields.2.1
          phase := fields.2.2.1
          progress := fields.2.2.2
          completed_steps := []
          current_step := none
          artifacts := []
          resume_instructions := resume_instructions }

/-- `TeamManager::record_recovery_event` from team_manager.rs: builds the
event from the currently persisted state and appends it to the history via
`add_recovery_event`; the generated event UUID is passed in as `freshEventId`. -/
def record_recovery_event (state : TeamState) (history : List RecoveryEvent)
    (failed_member_id failed_member_role replacement_member_id reason : String)
    (context : Option RecoveryContextSummary) (success : Bool)
    (freshEventId : String) (now : Nat) : List RecoveryEvent :=
  let failed_state := alGet state.members failed_member_id
  let event : RecoveryEvent :=
    { id := freshEventId
      timestamp := now
      failed_member_id := failed_member_id
      failed_member_role := failed_member_role
      replacement_member_id := replacement_member_id
      reason := reason
      spec_id := failed_state.bind (fun s => s.current_task.bind (fun t => t.spec_id))
      task_id := failed_state.bind (fun s => s.current_task.map (fun t => t.task_id))
      recovery_context := context
      success := success }
  add_recovery_event history event

/-- `WatchdogConfig` from recovery_watchdog.rs. -/
structure WatchdogConfig where
  check_interval_secs : Nat
  heartbeat_timeout_secs : Nat
  recovery_delay_ms : Nat
  enabled : Bool
deriving DecidableEq, Repr

/-- `WatchdogConfig::default` from recovery_watchdog.rs. -/
def watchdogConfigDefault : WatchdogConfig :=
  { check_interval_secs := 30
    heartbeat_timeout_secs := 120
    recovery_delay_ms := 5000
    enabled := true }

/-- `MemberWithState` from team_manager.rs (join of Config and State used by
the watchdog's health check; note it carries no heartbeat timestamp). -/
structure MemberWithState where
  id : String
  role : String
  agent_type : String
  status : MemberStatus
  terminal_id : Option String
  claude_session_id : Option String
  current_task : Option MemberTaskInfo
  failure_count : Nat
deriving DecidableEq, Repr

/-- `MemberHealth` from recovery_watchdog.rs. -/
structure MemberHealth where
  member_id : String
  team_id : String
  is_healthy : Bool
  last_heartbeat : Option Nat
  terminal_alive : Bool
  failure_detected : Bool
  failure_reason : Option String
deriving DecidableEq, Repr

/-- `RecoveryWatchdog::is_heartbeat_stale` from recovery_watchdog.rs: the
source is a stub that unconditionally reports the heartbeat as fresh. -/
def is_heartbeat_stale (_member_id : String) : Bool :=
  false

/-- The per-member health judgment inside `RecoveryWatchdog::check_health`
(recovery_watchdog.rs). -/
def check_member_health (team_id : String) (member : MemberWithState) : MemberHealth :=
  let is_stale := decide (member.status = MemberStatus.Active) && is_heartbeat_stale member.id
  { member_id := member.id
    team_id := team_id
    is_healthy := !decide (member.status = MemberStatus.Failed) && !is_stale
    last_heartbeat := none
    terminal_alive := member.terminal_id.isSome
    failure_detected := decide (member.status = MemberStatus.Failed) || is_stale
    failure_reason :=
      if member.status = MemberStatus.Failed then some "Agent reported failure"
      else if is_stale then some "Heartbeat timeout" else none }

/-- Modelled from the spec: the health judgment the specification requires,
"a member is judged unhealthy if its State.status is already Failed, or if it
is Active and its heartbeat exceeds the staleness timeout"
(now - last_heartbeat > heartbeat_timeout_secs). -/
def spec_failure_detected (cfg : WatchdogConfig) (now : Nat)
    (status : MemberStatus) (last_heartbeat : Option Nat) : Bool :=
  decide (status = MemberStatus.Failed) ||
    (decide (status = MemberStatus.Active) &&
      match last_heartbeat with
      | some t => decide (cfg.heartbeat_timeout_secs < now - t)
      | none => false)

/-- `RecoveryNotification` from recovery_watchdog.rs. -/
structure RecoveryNotification where
  team_id : String
  failed_member_id : String
  failed_member_role : String
  replacement_member_id : Option String
  reason : String
  timestamp : Nat
  success : Bool
deriving DecidableEq, Repr

/-- The persisted documents of one team (config, state and recovery history)
that the watchdog's recovery execution reads and writes. -/
structure TeamDocs where
  config : TeamConfig
  state : TeamState
  history : List RecoveryEvent
deriving DecidableEq, Repr

/-- The member lookup used by `trigger_recovery` for the attempt-cap check
(recovery_watchdog.rs: workers first, then the orchestrator). -/
def watchdog_find_member (config : TeamConfig) (member_id : String) :
    Option TeamMemberConfig :=
  match config.workers.find? (fun w => w.id == member_id) with
  | some w => some w
  | none =>
    if config.orchestrator.id == member_id then some config.orchestrator else none

/-- `RecoveryWatchdog::trigger_recovery` from recovery_watchdog.rs: abort
silently when auto-recovery is disabled or the member's failure count has
reached the cap; otherwise report the failure, snapshot the recovery
context, create the replacement and record a history event. Returns the
persisted documents after the call and the notification emitted, if any. -/
def trigger_recovery (docs : TeamDocs) (team_id member_id reason : String)
    (now : Nat) (freshMemberId freshEventId : String) :
    TeamDocs × Option RecoveryNotification :=
  let config := docs.config
  if !config.auto_recovery then (docs, none)
  else
    let capped :=
      match watchdog_find_member config member_id with
      | some m => decide (config.max_recovery_attempts ≤ m.failure_count)
      | none => false
    if capped then (docs, none)
    else
      match report_member_failure config docs.state member_id reason now with
      | .error _ => (docs, none)
      | .ok (config1, state1) =>
        let context := (build_recovery_context state1 member_id).toOption
        let context_summary := context.map (fun c =>
          ({ progress := c.progress
             artifacts := c.artifacts
             current_step := c.current_step } : RecoveryContextSummary))
        match create_replacement_member config1 state1 member_id freshMemberId now with
        | .error _ =>
          let history2 := record_recovery_event state1 docs.history member_id
            "unknown" "none" reason context_summary false freshEventId now
          ({ config := config1, state := state1, history := history2 }, none)
        | .ok (config2, state2, replacement) =>
          let history2 := record_recovery_event state2 docs.history member_id
            replacement.role replacement.id reason context_summary true freshEventId now
          ({ config := config2, state := state2, history := history2 },
            some { team_id := team_id
                   failed_member_id := member_id
                   failed_member_role := replacement.role
                   replacement_member_id := some replacement.id
                   reason := reason
                   timestamp := now
                   success := true })

/-- Concrete orchestrator member used by the witnesses. -/
def exOrchMember : TeamMemberConfig :=
  TeamMemberConfig.new "orch-1" "orchestrator" "orchestrator"

/-- Concrete worker member used by the witnesses. -/
def exWorkerMember : TeamMemberConfig :=
  { TeamMemberConfig.new "w1" "dev" "dev-agent" with
    current_task_id := some "t1"
    current_spec_id := some "s1" }

/-- Concrete task used by the witnesses. -/
def exTask : MemberTaskInfo :=
  { task_id := "t1", spec_id := some "s1", phase := "implement", progress := 40 }

/-- A second, different concrete task used to show a new assignment landing. -/
def exTask2 : MemberTaskInfo :=
  { task_id := "t2", spec_id := some "s2", phase := "test", progress := 0 }

/-- Concrete orchestrator member state used by the witnesses. -/
def exMsOrch : MemberState :=
  { status := MemberStatus.Active
    terminal_id := some "term-0"
    claude_session_id := none
    current_task := none
    last_heartbeat := some 1 }

/-- Concrete worker member state used by the witnesses. -/
def exMsWorker : MemberState :=
  { status := MemberStatus.Active
    terminal_id := some "term-1"
    claude_session_id := some "cs-1"
    current_task := some exTask
    last_heartbeat := some 2 }

/-- Concrete team config used by the witnesses. -/
def exConfig : TeamConfig :=
  { id := "team-1"
    name := "alpha"
    project_path := "/proj"
    created_at := 0
    created_by := "user"
    orchestrator := exOrchMember
    workers := [exWorkerMember]
    auto_recovery := true
    max_recovery_attempts := 3
    recovery_delay_ms := 5000
    description := none
    tags := [] }

/-- Concrete team state used by the witnesses. -/
def exState : TeamState :=
  { team_id := "team-1"
    status := TeamStatus.Active
    last_active := 3
    members := [("orch-1", exMsOrch), ("w1", exMsWorker)]
    active_specs := ["s1"]
    session_info := none }

/-- Concrete state whose worker has already failed. -/
def exStateFailed : TeamState :=
  { exState with
    members := [("orch-1", exMsOrch), ("w1", { exMsWorker with status := MemberStatus.Failed })] }

/-- Concrete saved session snapshot used by the resume witness. -/
def exSessionInfo : SessionInfo :=
  { saved_at := 4
    terminals := [{ member_id := "orch-1"
                    terminal_id := "term-0"
                    claude_session_id := none
                    cwd := "/proj" }] }

/-- Concrete paused team state used by the resume witness. -/
def exStatePaused : TeamState :=
  { exState with
    status := TeamStatus.Paused
    members := [("orch-1", { exMsOrch with status := MemberStatus.Paused }),
                ("w1", { exMsWorker with status := MemberStatus.Paused })]
    session_info := some exSessionInfo }

/-- Concrete team documents with auto-recovery disabled. -/
def exDocsNoAR : TeamDocs :=
  { config := { exConfig with auto_recovery := false }
    state := exState
    history := [] }

/-- Concrete team documents whose worker has exhausted the attempt cap. -/
def exDocsCapped : TeamDocs :=
  { config := { exConfig with
      workers := [{ exWorkerMember with failure_count := 3 }] }
    state := exStateFailed
    history := [] }

/-- Concrete recovery event used by the history witnesses. -/
def exEvent : RecoveryEvent :=
  { id := "e1"
    timestamp := 0
    failed_member_id := "w0"
    failed_member_role := "dev"
    replacement_member_id := "w1"
    reason := "crash"
    spec_id := none
    task_id := none
    recovery_context := none
    success := true }

/-- A second concrete recovery event used by the history witnesses. -/
def exEvent2 : RecoveryEvent :=
  { exEvent with id := "e2" }

/-- Concrete member row whose heartbeat is long stale while its status is
still Active. -/
def exStaleMember : MemberWithState :=
  { id := "w1"
    role := "dev"
    agent_type := "dev-agent"
    status := MemberStatus.Active
    terminal_id := some "term-1"
    claude_session_id := none
    current_task := none
    failure_count := 0 }

/-! Helper lemmas about the association-list model and `updateFirst`. -/

theorem alGet_alInsert_self {α : Type} (l : List (String × α)) (k : String) (v : α) :
    alGet (alInsert l k v) k = some v := by
  induction l with
  | nil => simp [alInsert, alGet]
  | cons p rest ih =>
    by_cases h : p.1 = k
    · simp [alInsert, alGet, h]
    · simp [alInsert, alGet, h, ih]

theorem mem_alKeys_alInsert {α : Type} (l : List (String × α)) (k k' : String) (v : α) :
    k' ∈ alKeys (alInsert l k v) ↔ (k' ∈ alKeys l ∨ k' = k) := by
  induction l with
  | nil => simp [alInsert, alKeys]
  | cons p rest ih =>
    by_cases h : p.1 = k
    · subst h
      simp [alInsert, alKeys]
      tauto
    · simp [alInsert, alKeys, h] at ih ⊢
      tauto

theorem alKeys_alModify {α : Type} (l : List (String × α)) (k : String) (f : α → α) :
    alKeys (alModify l k f) = alKeys l := by
  induction l with
  | nil => rfl
  | cons p rest ih =>
    by_cases h : p.1 = k
    · simp [alModify, alKeys, h]
    · simp [alModify, alKeys, h] at ih ⊢
      exact ih

theorem alGet_alModify_self {α : Type} (l : List (String × α)) (k : String)
    (f : α → α) (v : α) (h : alGet l k = some v) :
    alGet (alModify l k f) k = some (f v) := by
  induction l with
  | nil => simp [alGet] at h
  | cons p rest ih =>
    by_cases hp : p.1 = k
    · simp [alGet, hp] at h
      simp [alModify, alGet, hp, h]
    · simp [alGet, hp] at h
      simp [alModify, alGet, hp, ih h]

theorem alGet_alRemove_self {α : Type} (l : List (String × α)) (k : String) :
    alGet (alRemove l k) k = none := by
  induction l with
  | nil => rfl
  | cons p rest ih =>
    by_cases h : p.1 = k
    · simpa [alRemove, List.filter_cons, h] using ih
    · simpa [alRemove, List.filter_cons, h, alGet] using ih

theorem mem_alKeys_alRemove {α : Type} (l : List (String × α)) (k k' : String) :
    k' ∈ alKeys (alRemove l k) ↔ (k' ∈ alKeys l ∧ k' ≠ k) := by
  unfold alKeys alRemove
  rw [List.mem_map]
  constructor
  · rintro ⟨q, hq, rfl⟩
    rw [List.mem_filter] at hq
    refine ⟨List.mem_map.mpr ⟨q, hq.1, rfl⟩, ?_⟩
    simpa using hq.2
  · rintro ⟨hmem, hne⟩
    obtain ⟨q, hq, rfl⟩ := List.mem_map.mp hmem
    exact ⟨q, List.mem_filter.mpr ⟨hq, by simpa using hne⟩, rfl⟩

theorem mem_alKeys_of_alGet {α : Type} (l : List (String × α)) (k : String)
    (v : α) (h : alGet l k = some v) : k ∈ alKeys l := by
  induction l with
  | nil => simp [alGet] at h
  | cons p rest ih =>
    by_cases hp : p.1 = k
    · simp [alKeys, hp]
    · simp [alGet, hp] at h
      simp [alKeys]
      exact Or.inr (by simpa [alKeys] using ih h)

theorem find?_updateFirst {α : Type} (p : α → Bool) (f : α → α)
    (hpf : ∀ a, p a = true → p (f a) = true) (l : List α) :
    (updateFirst p f l).find? p = (l.find? p).map f := by
  induction l with
  | nil => rfl
  | cons x xs ih =>
    by_cases h : p x = true
    · rw [updateFirst, if_pos h, List.find?_cons_of_pos _ (hpf x h),
        List.find?_cons_of_pos _ h]
      rfl
    · rw [updateFirst, if_neg h, List.find?_cons_of_neg _ h,
        List.find?_cons_of_neg _ h, ih]

theorem updateFirst_updateFirst {α : Type} (p : α → Bool) (f g : α → α)
    (hpf : ∀ a, p a = true → p (f a) = true) (l : List α) :
    updateFirst p g (updateFirst p f l) = updateFirst p (fun a => g (f a)) l := by
  induction l with
  | nil => rfl
  | cons x xs ih =>
    by_cases h : p x = true
    · simp [updateFirst, h, hpf x h]
    · simp [updateFirst, h, ih]

theorem updateFirst_eq_set {α : Type} (p : α → Bool) (l : List α)
    (x : α) (h : l.find? p = some x) :
    ∃ i, l[i]? = some x ∧ p x = true ∧
      ∀ g : α → α, updateFirst p g l = l.set i (g x) := by
  induction l with
  | nil => simp [List.find?] at h
  | cons a t ih =>
    by_cases hpa : p a = true
    · rw [List.find?_cons_of_pos _ hpa] at h
      obtain rfl : a = x := by simpa using h
      exact ⟨0, by simp, hpa, fun g => by simp [updateFirst, hpa]⟩
    · rw [List.find?_cons_of_neg _ hpa] at h
      obtain ⟨i, h1, h2, h3⟩ := ih h
      exact ⟨i + 1, by simpa using h1, h2, fun g => by simp [updateFirst, hpa, h3 g]⟩

theorem updateFirst_const_updateFirst {α : Type} (p : α → Bool) (f : α → α) (r : α)
    (hpf : ∀ a, p a = true → p (f a) = true) (l : List α) :
    updateFirst p (fun _ => r) (updateFirst p f l) = updateFirst p (fun _ => r) l := by
  induction l with
  | nil => rfl
  | cons x xs ih =>
    by_cases h : p x = true
    · simp [updateFirst, h, hpf x h]
    · simp [updateFirst, h, ih]

theorem find?_append_of_none {α : Type} (p : α → Bool) (l : List α) (x : α)
    (h : l.find? p = none) :
    (l ++ [x]).find? p = if p x then some x else none := by
  rw [List.find?_append, h]
  by_cases hx : p x = true
  · simp [List.find?, hx, Option.or]
  · simp [List.find?, hx, Option.or]

theorem find?_update_index_entry (teams : List TeamIndexEntry) (entry : TeamIndexEntry) :
    (update_index_entry teams entry).find? (fun t => t.id == entry.id) = some entry := by
  unfold update_index_entry
  by_cases h : (teams.find? (fun t => t.id == entry.id)).isSome = true
  · rw [if_pos h]
    obtain ⟨x, hx⟩ := Option.isSome_iff_exists.mp h
    rw [find?_updateFirst _ _ (fun a _ => by simp) teams, hx]
    rfl
  · rw [if_neg h]
    have hn : teams.find? (fun t => t.id == entry.id) = none := by
      cases hf : teams.find? (fun t => t.id == entry.id) with
      | none => rfl
      | some x => rw [hf] at h; simp at h
    rw [find?_append_of_none _ _ _ hn]
    simp

/-! Claim theorems. -/

/-- Claim C3: for every team, remove_member called with the orchestrator's
member id fails with InvalidOperation, and the persisted Config and State are
left unchanged by the call (no write happens on the error path). -/
theorem c3_remove_orchestrator_rejected (config : TeamConfig) (state : TeamState) :
    remove_member config state config.orchestrator.id =
      .error (.InvalidOperation "Cannot remove orchestrator from team")
    ∧ persisted_docs config state (remove_member config state config.orchestrator.id) =
      (config, state) := by
  constructor
  · simp [remove_member]
  · simp [remove_member, persisted_docs]

/-- Claim C9: every save_config rewrites the team's index entry with status
Active, last_active set to the save time, and member_count equal to one plus
the number of workers, regardless of the team's persisted State.status — so
saving the config of a Paused or Archived team flips its index entry back to
Active. -/
theorem c9_save_config_resets_index_entry (config : TeamConfig) (now : Nat)
    (teams : List TeamIndexEntry) :
    ∃ entry,
      (save_config_index config now teams).find? (fun t => t.id == config.id) = some entry
      ∧ entry.status = TeamStatus.Active
      ∧ entry.last_active = now
      ∧ entry.member_count = 1 + config.workers.length
      ∧ entry.name = config.name := by
  refine ⟨save_config_index_entry config now, ?_, rfl, rfl, rfl, rfl⟩
  have h := find?_update_index_entry teams (save_config_index_entry config now)
  simpa [save_config_index, save_config_index_entry] using h

/-- Claim C8: appending a recovery event inserts it at the front, the history
never exceeds 100 events, the surviving old events are unchanged (shifted one
position), and appending to a history already holding 100 events drops the
oldest one. -/
theorem c8_history_append_cap (events : List RecoveryEvent) (e : RecoveryEvent) :
    (add_recovery_event events e).head? = some e
  ∧ (add_recovery_event events e).length ≤ 100
  ∧ (∀ i : Nat, i + 1 < 100 → (add_recovery_event events e)[i + 1]? = events[i]?)
  ∧ (events.length = 100 → add_recovery_event events e = e :: events.dropLast) := by
  refine ⟨?_, ?_, ?_, ?_⟩
  · rfl
  · exact List.length_take_le _ _
  · intro i hi
    rw [add_recovery_event, List.getElem?_take, if_pos hi]
    simp
  · intro h
    rw [add_recovery_event]
    show (e :: events).take (99 + 1) = e :: events.dropLast
    rw [List.take_succ_cons, List.dropLast_eq_take, h]

/-- Witness for C8 at a concrete history of exactly 100 events. -/
theorem c8_history_append_cap_witness :
    ((List.replicate 100 exEvent).length = 100
      ∧ add_recovery_event (List.replicate 100 exEvent) exEvent2 =
          exEvent2 :: (List.replicate 100 exEvent).dropLast)
  ∧ (0 + 1 < 100
      ∧ (add_recovery_event (List.replicate 100 exEvent) exEvent2)[0 + 1]? =
          (List.replicate 100 exEvent)[0]?) := by
  have h1 : (List.replicate 100 exEvent).length = 100 := by simp
  exact ⟨⟨h1, (c8_history_append_cap (List.replicate 100 exEvent) exEvent2).2.2.2 h1⟩,
    ⟨by norm_num,
      (c8_history_append_cap (List.replicate 100 exEvent) exEvent2).2.2.1 0 (by norm_num)⟩⟩

/-- Claim C7 (code bug): per the spec an Active member whose last heartbeat
is 1000 seconds old (timeout 120 s) must have failure_detected, but the
watchdog's health check judges it healthy, because is_heartbeat_stale is a
stub that returns false unconditionally. -/
theorem c7_stale_active_member_undetected :
    spec_failure_detected watchdogConfigDefault 1000 MemberStatus.Active (some 0) = true
  ∧ exStaleMember.status = MemberStatus.Active
  ∧ (check_member_health "team-1" exStaleMember).failure_detected = false
  ∧ (check_member_health "team-1" exStaleMember).is_healthy = true := by
  refine ⟨by decide, rfl, by decide, by decide⟩

/-- Claim C5 is false on the code: update_member_task performs no status
check, so a member whose State.status is Failed (neither replaced nor reset)
does get a new current_task installed. Concrete run: worker w1 is Failed with
current_task t1, update_member_task installs t2. -/
theorem c5_counterexample_failed_member_gets_task :
    (alGet exStateFailed.members "w1").map (fun m => m.status) = some MemberStatus.Failed
  ∧ (alGet exStateFailed.members "w1").bind (fun m => m.current_task) = some exTask
  ∧ ((update_member_task exConfig exStateFailed "w1" (some exTask2) 10).toOption.bind
      (fun r => alGet r.2.members "w1")).bind (fun m => m.current_task) = some exTask2
  ∧ ((update_member_task exConfig exStateFailed "w1" (some exTask2) 10).toOption.bind
      (fun r => alGet r.2.members "w1")).map (fun m => m.status) = some MemberStatus.Failed := by
  refine ⟨by decide, by decide, by decide, by decide⟩

/-- Claim C5 (amended): update_member_task performs no member-status check;
called on a member present in State whose status is Failed it installs the
given task info as the member's current_task, and the status stays Failed. -/
theorem c5_update_task_ignores_failed_status (config : TeamConfig)
    (state : TeamState) (member_id : String) (task : MemberTaskInfo) (now : Nat)
    (ms : MemberState) (h : alGet state.members member_id = some ms)
    (hf : ms.status = MemberStatus.Failed) :
    ∃ state2 ms2,
      update_member_task config state member_id (some task) now = .ok (config, state2)
      ∧ alGet state2.members member_id = some ms2
      ∧ ms2.current_task = some task
      ∧ ms2.status = MemberStatus.Failed := by
  simp only [update_member_task, h]
  refine ⟨_, _, rfl, alGet_alInsert_self _ _ _, rfl, ?_⟩
  simpa using hf

/-- Witness for the amended C5 at the concrete failed worker. -/
theorem c5_update_task_ignores_failed_status_witness :
    (alGet exStateFailed.members "w1" = some { exMsWorker with status := MemberStatus.Failed }
      ∧ ({ exMsWorker with status := MemberStatus.Failed } : MemberState).status =
          MemberStatus.Failed)
  ∧ ∃ state2 ms2,
      update_member_task exConfig exStateFailed "w1" (some exTask2) 10 = .ok (exConfig, state2)
      ∧ alGet state2.members "w1" = some ms2
      ∧ ms2.current_task = some exTask2
      ∧ ms2.status = MemberStatus.Failed :=
  ⟨⟨by decide, rfl⟩,
    c5_update_task_ignores_failed_status exConfig exStateFailed "w1" exTask2 10
      { exMsWorker with status := MemberStatus.Failed } (by decide) rfl⟩

/-- Claim C6 is false for record_heartbeat: the call succeeds and refreshes
the member's last_heartbeat (to 10), but the team's last_active stays at its
old value 3 instead of being refreshed. -/
theorem c6_counterexample_heartbeat_last_active :
    (record_heartbeat exConfig exState "w1" 10).toOption.map (fun r => r.2.last_active) = some 3
  ∧ ((record_heartbeat exConfig exState "w1" 10).toOption.bind
      (fun r => alGet r.2.members "w1")).bind (fun m => m.last_heartbeat) = some 10
  ∧ (3 : Nat) ≠ 10 := by
  refine ⟨by decide, by decide, by decide⟩

/-- Claim C6 (amended): for a member id present in State,
update_member_session, update_member_status and update_member_task refresh
the member's last_heartbeat and the team's last_active; record_heartbeat
refreshes only the member's last_heartbeat and leaves last_active unchanged.
All four fail with MemberNotFound when the id is absent from State. -/
theorem c6_member_update_ops (config : TeamConfig) (state : TeamState)
    (member_id : String) (now : Nat) (tid csid : Option String)
    (status : MemberStatus) (task : Option MemberTaskInfo) :
    ((∃ ms, alGet state.members member_id = some ms) →
      (∃ s1, update_member_session config state member_id tid csid now = .ok (config, s1)
        ∧ (alGet s1.members member_id).bind (fun m => m.last_heartbeat) = some now
        ∧ s1.last_active = now)
      ∧ (∃ s2, update_member_status config state member_id status now = .ok (config, s2)
        ∧ (alGet s2.members member_id).bind (fun m => m.last_heartbeat) = some now
        ∧ s2.last_active = now)
      ∧ (∃ s3, update_member_task config state member_id task now = .ok (config, s3)
        ∧ (alGet s3.members member_id).bind (fun m => m.last_heartbeat) = some now
        ∧ s3.last_active = now)
      ∧ (∃ s4, record_heartbeat config state member_id now = .ok (config, s4)
        ∧ (alGet s4.members member_id).bind (fun m => m.last_heartbeat) = some now
        ∧ s4.last_active = state.last_active))
  ∧ (alGet state.members member_id = none →
      update_member_session config state member_id tid csid now =
        .error (.MemberNotFound member_id)
      ∧ update_member_status config state member_id status now =
        .error (.MemberNotFound member_id)
      ∧ update_member_task config state member_id task now =
        .error (.MemberNotFound member_id)
      ∧ record_heartbeat config state member_id now =
        .error (.MemberNotFound member_id)) := by
  constructor
  · rintro ⟨ms, hms⟩
    refine ⟨?_, ?_, ?_, ?_⟩
    · simp only [update_member_session, hms]
      exact ⟨_, rfl, by rw [alGet_alInsert_self]; rfl, rfl⟩
    · simp only [update_member_status, hms]
      exact ⟨_, rfl, by rw [alGet_alInsert_self]; rfl, rfl⟩
    · simp only [update_member_task, hms]
      exact ⟨_, rfl, by rw [alGet_alInsert_self]; rfl, rfl⟩
    · simp only [record_heartbeat, hms]
      exact ⟨_, rfl, by rw [alGet_alInsert_self]; rfl, rfl⟩
  · intro h
    refine ⟨?_, ?_, ?_, ?_⟩
    · simp only [update_member_session, h]
    · simp only [update_member_status, h]
    · simp only [update_member_task, h]
    · simp only [record_heartbeat, h]

/-- Witness for the amended C6: present member w1 and absent member ghost. -/
theorem c6_member_update_ops_witness :
    ((∃ ms, alGet exState.members "w1" = some ms)
      ∧ ∃ s4, record_heartbeat exConfig exState "w1" 10 = .ok (exConfig, s4)
          ∧ (alGet s4.members "w1").bind (fun m => m.last_heartbeat) = some 10
          ∧ s4.last_active = exState.last_active)
  ∧ (alGet exState.members "ghost" = none
      ∧ record_heartbeat exConfig exState "ghost" 10 = .error (.MemberNotFound "ghost")) :=
  ⟨⟨⟨exMsWorker, by decide⟩,
      ((c6_member_update_ops exConfig exState "w1" 10 none none MemberStatus.Idle none).1
        ⟨exMsWorker, by decide⟩).2.2.2⟩,
    ⟨by decide,
      ((c6_member_update_ops exConfig exState "ghost" 10 none none MemberStatus.Idle none).2
        (by decide)).2.2.2⟩⟩

/-- Claim C10: update_member_session with None for terminal_id (respectively
claude_session_id) leaves the stored value unchanged; only Some overwrites;
a previously recorded identifier is never cleared by this operation. -/
theorem c10_update_member_session_preserves (config : TeamConfig) (state : TeamState)
    (member_id : String) (tid csid : Option String) (now : Nat) (ms : MemberState)
    (h : alGet state.members member_id = some ms) :
    ∃ state2 ms2,
      update_member_session config state member_id tid csid now = .ok (config, state2)
      ∧ alGet state2.members member_id = some ms2
      ∧ (tid = none → ms2.terminal_id = ms.terminal_id)
      ∧ (csid = none → ms2.claude_session_id = ms.claude_session_id)
      ∧ (∀ t, tid = some t → ms2.terminal_id = some t)
      ∧ (∀ c, csid = some c → ms2.claude_session_id = some c)
      ∧ (ms.terminal_id.isSome → ms2.terminal_id.isSome)
      ∧ (ms.claude_session_id.isSome → ms2.claude_session_id.isSome) := by
  simp only [update_member_session, h]
  refine ⟨_, _, rfl, alGet_alInsert_self _ _ _, ?_, ?_, ?_, ?_, ?_, ?_⟩
  · rintro rfl; simp
  · rintro rfl; simp
  · rintro t rfl; simp
  · rintro c rfl; simp
  · intro hs
    cases tid with
    | none => simpa using hs
    | some t => simp
  · intro hs
    cases csid with
    | none => simpa using hs
    | some c => simp

/-- Witness for C10: w1 keeps its terminal id when passed None, and takes the
new claude session id when passed Some. -/
theorem c10_update_member_session_preserves_witness :
    alGet exState.members "w1" = some exMsWorker
  ∧ ∃ state2 ms2,
      update_member_session exConfig exState "w1" none (some "cs-2") 10 = .ok (exConfig, state2)
      ∧ alGet state2.members "w1" = some ms2
      ∧ ((none : Option String) = none → ms2.terminal_id = exMsWorker.terminal_id)
      ∧ ((some "cs-2" : Option String) = none → ms2.claude_session_id = exMsWorker.claude_session_id)
      ∧ (∀ t, (none : Option String) = some t → ms2.terminal_id = some t)
      ∧ (∀ c, (some "cs-2" : Option String) = some c → ms2.claude_session_id = some c)
      ∧ (exMsWorker.terminal_id.isSome → ms2.terminal_id.isSome)
      ∧ (exMsWorker.claude_session_id.isSome → ms2.claude_session_id.isSome) :=
  ⟨by decide,
    c10_update_member_session_preserves exConfig exState "w1" none (some "cs-2") 10
      exMsWorker (by decide)⟩

/-- Claim C4: resume_team fails with InvalidOperation whenever the team's
status is not Paused; on a Paused team it sets every member to Idle with the
terminal and claude session ids cleared, flips the team status to Active and
returns the previously saved SessionInfo while clearing it from State. -/
theorem c4_resume_team_spec (config : TeamConfig) (state : TeamState) (now : Nat) :
    (state.status ≠ TeamStatus.Paused →
      resume_team config state now =
        .error (.InvalidOperation ("Team is not paused, status: " ++ state.status.debug_str)))
  ∧ (state.status = TeamStatus.Paused →
      ∃ state2, resume_team config state now = .ok (config, state2, state.session_info)
        ∧ state2.status = TeamStatus.Active
        ∧ state2.session_info = none
        ∧ state2.last_active = now
        ∧ alKeys state2.members = alKeys state.members
        ∧ ∀ p ∈ state2.members,
            p.2.status = MemberStatus.Idle
            ∧ p.2.terminal_id = none
            ∧ p.2.claude_session_id = none) := by
  constructor
  · intro h
    rw [resume_team, if_pos h]
  · intro h
    refine ⟨{ state with
        status := TeamStatus.Active
        last_active := now
        members := state.members.map (fun p =>
          (p.1, { p.2 with
            status := MemberStatus.Idle
            terminal_id := none
            claude_session_id := none }))
        session_info := none }, ?_, rfl, rfl, rfl, ?_, ?_⟩
    · rw [resume_team, if_neg (by simp [h])]
    · simp [alKeys]
    · intro p hp
      simp only [List.mem_map] at hp
      obtain ⟨q, _, rfl⟩ := hp
      exact ⟨rfl, rfl, rfl⟩

/-- Witness for C4: resuming the Active team fails; resuming the Paused team
succeeds and returns the saved session info. -/
theorem c4_resume_team_spec_witness :
    (exState.status ≠ TeamStatus.Paused
      ∧ resume_team exConfig exState 9 =
          .error (.InvalidOperation ("Team is not paused, status: " ++ exState.status.debug_str)))
  ∧ (exStatePaused.status = TeamStatus.Paused
      ∧ ∃ state2, resume_team exConfig exStatePaused 9 = .ok (exConfig, state2, exStatePaused.session_info)
          ∧ state2.status = TeamStatus.Active
          ∧ state2.session_info = none) := by
  refine ⟨⟨by decide, (c4_resume_team_spec exConfig exState 9).1 (by decide)⟩, ⟨rfl, ?_⟩⟩
  obtain ⟨s2, he, hst, hsi, _⟩ := (c4_resume_team_spec exConfig exStatePaused 9).2 rfl
  exact ⟨s2, he, hst, hsi⟩

/-- Claim C2: trigger_recovery is a no-op — the persisted config, state and
history are all unchanged and no notification is emitted — when the team's
config has auto_recovery disabled, or when the member's failure_count has
reached max_recovery_attempts. -/
theorem c2_trigger_recovery_noop (docs : TeamDocs) (team_id member_id reason : String)
    (now : Nat) (freshMemberId freshEventId : String)
    (h : docs.config.auto_recovery = false ∨
      ∃ m, watchdog_find_member docs.config member_id = some m
        ∧ docs.config.max_recovery_attempts ≤ m.failure_count) :
    trigger_recovery docs team_id member_id reason now freshMemberId freshEventId =
      (docs, none) := by
  rcases h with h | ⟨m, hm, hcap⟩
  · simp [trigger_recovery, h]
  · by_cases har : docs.config.auto_recovery
    · simp only [trigger_recovery, har, Bool.not_true, Bool.false_eq_true, if_false, hm]
      rw [if_pos (by exact decide_eq_true hcap)]
    · simp [trigger_recovery, har]

/-- Witness for C2: a team with auto-recovery off and a team whose worker has
exhausted the attempt cap are both left untouched. -/
theorem c2_trigger_recovery_noop_witness :
    (exDocsNoAR.config.auto_recovery = false
      ∧ trigger_recovery exDocsNoAR "team-1" "w1" "stale" 7 "w2" "e1" = (exDocsNoAR, none))
  ∧ ((∃ m, watchdog_find_member exDocsCapped.config "w1" = some m
        ∧ exDocsCapped.config.max_recovery_attempts ≤ m.failure_count)
      ∧ trigger_recovery exDocsCapped "team-1" "w1" "crash" 7 "w2" "e1" = (exDocsCapped, none)) :=
  ⟨⟨rfl, c2_trigger_recovery_noop exDocsNoAR "team-1" "w1" "stale" 7 "w2" "e1" (Or.inl rfl)⟩,
    ⟨⟨{ exWorkerMember with failure_count := 3 }, by decide, by decide⟩,
      c2_trigger_recovery_noop exDocsCapped "team-1" "w1" "crash" 7 "w2" "e1"
        (Or.inr ⟨{ exWorkerMember with failure_count := 3 }, by decide, by decide⟩)⟩⟩

/-- Claim C1: for a member present in both Config and State,
report_member_failure followed by create_replacement_member removes the
failed id from the State member-id set and adds exactly one new id, the
fresh one; the replacement's Config entry records recovered_from = failed
id, keeps the failed member's role, agent_type, current_task_id and
current_spec_id, and occupies the same Config slot (the orchestrator slot,
or the same worker index); the replacement's State entry has status
Recovering, the failed member's current_task at the time of failure, and
both terminal_id and claude_session_id set to None. -/
theorem c1_fail_then_replace_spec (config : TeamConfig) (state : TeamState)
    (member_id reason freshId : String) (now1 now2 : Nat)
    (fm : TeamMemberConfig) (ms : MemberState)
    (hcfg : find_config_member config member_id = some fm)
    (hst : alGet state.members member_id = some ms)
    (hfresh : freshId ∉ alKeys state.members) :
    ∃ config2 state2 repl,
      fail_then_replace config state member_id reason now1 now2 freshId =
        .ok (config2, state2, repl)
      ∧ repl.id = freshId
      ∧ repl.recovered_from = some member_id
      ∧ repl.role = fm.role
      ∧ repl.agent_type = fm.agent_type
      ∧ repl.current_task_id = fm.current_task_id
      ∧ repl.current_spec_id = fm.current_spec_id
      ∧ member_id ∉ alKeys state2.members
      ∧ (∀ k, k ∈ alKeys state2.members ↔
          ((k ∈ alKeys state.members ∧ k ≠ member_id) ∨ k = freshId))
      ∧ alGet state2.members freshId = some
          { status := MemberStatus.Recovering
            terminal_id := none
            claude_session_id := none
            current_task := ms.current_task
            last_heartbeat := some now2 }
      ∧ ((config.orchestrator.id = member_id
            ∧ config2.orchestrator = repl
            ∧ config2.workers = config.workers)
        ∨ (config.orchestrator.id ≠ member_id
            ∧ config2.orchestrator = config.orchestrator
            ∧ ∃ i x, config.workers[i]? = some x ∧ x.id = member_id
                ∧ config2.workers = config.workers.set i repl)) := by
  have hmem : member_id ∈ alKeys state.members := mem_alKeys_of_alGet _ _ _ hst
  have hne : member_id ≠ freshId := fun e => hfresh (e ▸ hmem)
  have hget1 : alGet (alModify state.members member_id
      (fun m => { m with status := MemberStatus.Failed })) member_id =
      some { ms with status := MemberStatus.Failed } :=
    alGet_alModify_self _ _ _ _ hst
  by_cases horch : config.orchestrator.id = member_id
  · rw [find_config_member, if_pos (beq_iff_eq.mpr horch)] at hcfg
    injection hcfg with hfm
    subst hfm
    have hrep : report_member_failure config state member_id reason now1 =
        .ok ({ config with orchestrator := bump_failure now1 config.orchestrator },
          { state with
            members := alModify state.members member_id
              (fun m => { m with status := MemberStatus.Failed })
            last_active := now1 }) := by
      rw [report_member_failure, if_pos (beq_iff_eq.mpr horch)]
    have hfind1 : find_config_member
        { config with orchestrator := bump_failure now1 config.orchestrator } member_id =
        some (bump_failure now1 config.orchestrator) := by
      rw [find_config_member,
        if_pos (show ((bump_failure now1 config.orchestrator).id == member_id) = true from
          beq_iff_eq.mpr horch)]
    refine ⟨{ config with orchestrator :=
        { id := freshId
          role := config.orchestrator.role
          agent_type := config.orchestrator.agent_type
          terminal_id := none
          claude_session_id := none
          current_task_id := config.orchestrator.current_task_id
          current_spec_id := config.orchestrator.current_spec_id
          failure_count := 0
          last_failure := none
          recovered_from := some member_id } },
      { state with
        members := alInsert (alRemove (alModify state.members member_id
            (fun m => { m with status := MemberStatus.Failed })) member_id) freshId
          { status := MemberStatus.Recovering
            terminal_id := none
            claude_session_id := none
            current_task := ms.current_task
            last_heartbeat := some now2 }
        last_active := now2 },
      { id := freshId
        role := config.orchestrator.role
        agent_type := config.orchestrator.agent_type
        terminal_id := none
        claude_session_id := none
        current_task_id := config.orchestrator.current_task_id
        current_spec_id := config.orchestrator.current_spec_id
        failure_count := 0
        last_failure := none
        recovered_from := some member_id },
      ?_, rfl, rfl, rfl, rfl, rfl, rfl, ?_, ?_, alGet_alInsert_self _ _ _,
      Or.inl ⟨horch, rfl, rfl⟩⟩
    · simp only [fail_then_replace, hrep, create_replacement_member, hfind1]
      simp [bump_failure, TeamMemberConfig.new, horch, hget1]
    · intro hk
      rw [mem_alKeys_alInsert] at hk
      rcases hk with hk | hk
      · rw [mem_alKeys_alRemove] at hk
        exact hk.2 rfl
      · exact hne hk
    · intro k
      rw [mem_alKeys_alInsert, mem_alKeys_alRemove, alKeys_alModify]
  · rw [find_config_member, if_neg (by simp [horch])] at hcfg
    have hpf : ∀ a : TeamMemberConfig, (a.id == member_id) = true →
        ((bump_failure now1 a).id == member_id) = true := fun a ha => ha
    have hfmid : fm.id = member_id := by
      have h2 := List.find?_some hcfg
      simpa using h2
    obtain ⟨i, hgi, hpfm, hsetg⟩ :=
      updateFirst_eq_set (fun w => w.id == member_id) config.workers fm hcfg
    have hrep : report_member_failure config state member_id reason now1 =
        .ok ({ config with
            workers :=
              updateFirst (fun w => w.id == member_id) (bump_failure now1) config.workers },
          { state with
            members := alModify state.members member_id
              (fun m => { m with status := MemberStatus.Failed })
            last_active := now1 }) := by
      rw [report_member_failure, if_neg (by simp [horch]), if_pos (by rw [hcfg]; rfl)]
    have hfind1 : find_config_member
        { config with
          workers :=
            updateFirst (fun w => w.id == member_id) (bump_failure now1) config.workers }
        member_id =
        some (bump_failure now1 fm) := by
      rw [find_config_member, if_neg (by simp [horch])]
      show (updateFirst (fun w => w.id == member_id) (bump_failure now1)
        config.workers).find? (fun w => w.id == member_id) = some (bump_failure now1 fm)
      rw [find?_updateFirst _ _ hpf, hcfg]
      rfl
    refine ⟨{ config with
        workers :=
          config.workers.set i
            { id := freshId
              role := fm.role
              agent_type := fm.agent_type
              terminal_id := none
              claude_session_id := none
              current_task_id := fm.current_task_id
              current_spec_id := fm.current_spec_id
              failure_count := 0
              last_failure := none
              recovered_from := some member_id } },
      { state with
        members := alInsert (alRemove (alModify state.members member_id
            (fun m => { m with status := MemberStatus.Failed })) member_id) freshId
          { status := MemberStatus.Recovering
            terminal_id := none
            claude_session_id := none
            current_task := ms.current_task
            last_heartbeat := some now2 }
        last_active := now2 },
      { id := freshId
        role := fm.role
        agent_type := fm.agent_type
        terminal_id := none
        claude_session_id := none
        current_task_id := fm.current_task_id
        current_spec_id := fm.current_spec_id
        failure_count := 0
        last_failure := none
        recovered_from := some member_id },
      ?_, rfl, rfl, rfl, rfl, rfl, rfl, ?_, ?_, alGet_alInsert_self _ _ _,
      Or.inr ⟨horch, rfl, i, fm, hgi, hfmid, rfl⟩⟩
    · simp only [fail_then_replace, hrep, create_replacement_member, hfind1]
      simp [horch, bump_failure, TeamMemberConfig.new, hget1]
      rw [updateFirst_const_updateFirst _ _ _ hpf, hsetg]
    · intro hk
      rw [mem_alKeys_alInsert] at hk
      rcases hk with hk | hk
      · rw [mem_alKeys_alRemove] at hk
        exact hk.2 rfl
      · exact hne hk
    · intro k
      rw [mem_alKeys_alInsert, mem_alKeys_alRemove, alKeys_alModify]

/-- Witness for C1: worker w1 of the concrete team is failed and replaced by
fresh id w2. -/
theorem c1_fail_then_replace_spec_witness :
    (find_config_member exConfig "w1" = some exWorkerMember
      ∧ alGet exState.members "w1" = some exMsWorker
      ∧ "w2" ∉ alKeys exState.members)
  ∧ ∃ config2 state2 repl,
      fail_then_replace exConfig exState "w1" "crash" 5 6 "w2" = .ok (config2, state2, repl)
      ∧ repl.id = "w2"
      ∧ repl.recovered_from = some "w1" := by
  refine ⟨⟨by decide, by decide, by decide⟩, ?_⟩
  obtain ⟨c2, s2, r, heq, hid, hrec, _⟩ :=
    c1_fail_then_replace_spec exConfig exState "w1" "crash" "w2" 5 6 exWorkerMember
      exMsWorker (by decide) (by decide) (by decide)
  exact ⟨c2, s2, r, heq, hid, hrec⟩

end Sidstack
